import Mathlib

/-!
Verification of the ticket-range allocation and reconciliation engine of the
Ticketing-Management-System repository, as a shallow embedding in Lean.

The embedding follows the source:
  * the Postgres function update_event_bulk_range (schema migration file),
    including the valid_bulk_range CHECK constraint on the events table;
  * the Cashier page (Login.tsx): getAvailableRange (two variants),
    isTicketInBulkRange, and the sell path of handleSubmit;
  * the Scanner page (two variants): validateTicketForEvent and handleScan;
  * the Upload page (Upload.tsx): handleCreateEvent and handleUpload.

Database rows are explicit records; nullable SQL columns are Option; the
store is a list of rows; a conditional UPDATE ... WHERE is a map over the
list that also reports the number of affected rows.  JavaScript truthiness
tests on nullable integer columns (if (!event.bulk_sold_range_start) ...)
are embedded by truthyInt, which is false for NULL and for 0.
-/

namespace TicketSystem

inductive TicketStatus where
  | available
  | sold
  | used
deriving DecidableEq, Repr

inductive SaleType where
  | cashier
  | bulk
deriving DecidableEq, Repr

/-- A row of the events table: integer range bounds, the nullable bulk
range columns and the nullable bulk buyer columns. -/
structure EventRow where
  range_start : Int
  range_end : Int
  bulk_sold_range_start : Option Int
  bulk_sold_range_end : Option Int
  bulk_buyer_name : Option String
  bulk_buyer_email : Option String
  bulk_buyer_phone : Option String
deriving DecidableEq, Repr

/-- A row of the tickets table (single-event model, so event_id is left
implicit).  Timestamps and actor references are Nat. -/
structure TicketRecord where
  id : Nat
  ticket_number : Int
  ticket_code : String
  qr_data : String
  status : TicketStatus
  sale_type : SaleType
  buyer_name : Option String
  buyer_email : Option String
  buyer_phone : Option String
  sold_at : Option Nat
  sold_by : Option Nat
  scanned_at : Option Nat
  scanned_by : Option Nat
deriving DecidableEq, Repr

/-- JavaScript truthiness of a nullable integer column: null and 0 are
falsy, every other value is truthy. -/
def truthyInt : Option Int → Bool
  | none => false
  | some v => v != 0

/-- SQL COALESCE on two nullable text values. -/
def coalesce (a b : Option String) : Option String :=
  match a with
  | some v => some v
  | none => b

/-- The valid_bulk_range CHECK constraint on the events table:
(bulk_sold_range_start IS NULL AND bulk_sold_range_end IS NULL) OR
(bulk_sold_range_start >= range_start AND bulk_sold_range_end <= range_end
 AND bulk_sold_range_start <= bulk_sold_range_end).
With exactly one of the two columns NULL the comparison yields SQL NULL and
the CHECK passes, mirrored by the catch-all case. -/
def validBulkRange (e : EventRow) : Bool :=
  match e.bulk_sold_range_start, e.bulk_sold_range_end with
  | none, none => true
  | some bs, some be =>
      decide (e.range_start ≤ bs) && decide (be ≤ e.range_end) && decide (bs ≤ be)
  | _, _ => true

/-- Errors raised by update_event_bulk_range. -/
inductive BulkRangeError where
  | outOfBounds
  | invalidInterval
  | discontinuousRange (gapSize : Int)
deriving DecidableEq, Repr

/-- The Postgres function update_event_bulk_range: validates the proposed
bulk interval against the event range, then either sets the bulk range
(no existing one), merges with an overlapping or adjacent existing range
(buyer name overwritten, email and phone COALESCEd), or raises an error
carrying the smaller of the two gap sizes. -/
def update_event_bulk_range (ev : EventRow) (s e : Int)
    (name email phone : Option String) : Except BulkRangeError EventRow :=
  if s < ev.range_start ∨ e > ev.range_end then
    .error .outOfBounds
  else if s > e then
    .error .invalidInterval
  else
    match ev.bulk_sold_range_start, ev.bulk_sold_range_end with
    | some cs, some ce =>
        if s ≤ ce + 1 ∧ e ≥ cs - 1 then
          .ok { ev with
                bulk_sold_range_start := some (min cs s),
                bulk_sold_range_end := some (max ce e),
                bulk_buyer_name := name,
                bulk_buyer_email := coalesce email ev.bulk_buyer_email,
                bulk_buyer_phone := coalesce phone ev.bulk_buyer_phone }
        else
          .error (.discontinuousRange (min |s - ce - 1| |cs - e - 1|))
    | _, _ =>
        .ok { ev with
              bulk_sold_range_start := some s,
              bulk_sold_range_end := some e,
              bulk_buyer_name := name,
              bulk_buyer_email := email,
              bulk_buyer_phone := phone }

/-- Applying a bulk proposal to an event: on an error the transaction is
aborted and the event row is unchanged. -/
def applyPropose (ev : EventRow) (s e : Int)
    (name email phone : Option String) : EventRow :=
  match update_event_bulk_range ev s e name email phone with
  | .ok ev2 => ev2
  | .error _ => ev

/-- C1: update_event_bulk_range fails outOfBounds when the proposal leaves
the event range, fails invalidInterval when start exceeds end, sets the
bulk range and buyer verbatim when no bulk range exists, merges an
overlapping or adjacent proposal (buyer name overwritten, email and phone
kept unless the call supplies a value), and otherwise fails
discontinuousRange with the smaller of the two gap sizes. -/
theorem update_event_bulk_range_spec (ev : EventRow) (s e : Int)
    (name email phone : Option String) :
    ((s < ev.range_start ∨ e > ev.range_end) →
      update_event_bulk_range ev s e name email phone = .error .outOfBounds)
    ∧ (ev.range_start ≤ s → e ≤ ev.range_end → s > e →
      update_event_bulk_range ev s e name email phone = .error .invalidInterval)
    ∧ (ev.range_start ≤ s → e ≤ ev.range_end → s ≤ e →
      (ev.bulk_sold_range_start = none ∨ ev.bulk_sold_range_end = none) →
      update_event_bulk_range ev s e name email phone =
        .ok { ev with
              bulk_sold_range_start := some s,
              bulk_sold_range_end := some e,
              bulk_buyer_name := name,
              bulk_buyer_email := email,
              bulk_buyer_phone := phone })
    ∧ (∀ cs ce, ev.bulk_sold_range_start = some cs →
      ev.bulk_sold_range_end = some ce →
      ev.range_start ≤ s → e ≤ ev.range_end → s ≤ e →
      s ≤ ce + 1 → e ≥ cs - 1 →
      update_event_bulk_range ev s e name email phone =
        .ok { ev with
              bulk_sold_range_start := some (min cs s),
              bulk_sold_range_end := some (max ce e),
              bulk_buyer_name := name,
              bulk_buyer_email := coalesce email ev.bulk_buyer_email,
              bulk_buyer_phone := coalesce phone ev.bulk_buyer_phone })
    ∧ (∀ cs ce, ev.bulk_sold_range_start = some cs →
      ev.bulk_sold_range_end = some ce →
      ev.range_start ≤ s → e ≤ ev.range_end → s ≤ e →
      ¬ (s ≤ ce + 1 ∧ e ≥ cs - 1) →
      update_event_bulk_range ev s e name email phone =
        .error (.discontinuousRange (min |s - ce - 1| |cs - e - 1|))) := by
  refine ⟨?_, ?_, ?_, ?_, ?_⟩
  · intro h
    simp [update_event_bulk_range, h]
  · intro h1 h2 h3
    rw [update_event_bulk_range, if_neg (by omega), if_pos h3]
  · intro h1 h2 h3 h4
    rw [update_event_bulk_range, if_neg (by omega), if_neg (by omega)]
    cases hbs : ev.bulk_sold_range_start <;> cases hbe : ev.bulk_sold_range_end <;>
      first
        | rfl
        | (exfalso; rcases h4 with h | h <;> simp_all)
  · intro cs ce hcs hce h1 h2 h3 h4 h5
    simp only [update_event_bulk_range, hcs, hce]
    rw [if_neg (by omega), if_neg (by omega), if_pos ⟨h4, h5⟩]
  · intro cs ce hcs hce h1 h2 h3 h4
    simp only [update_event_bulk_range, hcs, hce]
    rw [if_neg (by omega), if_neg (by omega), if_neg h4]

/-- A sample event with an existing bulk range, used in concrete checks. -/
def evBulk510 : EventRow :=
  { range_start := 1, range_end := 100,
    bulk_sold_range_start := some 5, bulk_sold_range_end := some 10,
    bulk_buyer_name := some "Old", bulk_buyer_email := some "old@x",
    bulk_buyer_phone := none }

/-- Witness for C1: the merge branch at a concrete adjacent proposal. -/
theorem update_event_bulk_range_spec_witness :
    update_event_bulk_range evBulk510 11 20 (some "New") none (some "p") =
      .ok { evBulk510 with
            bulk_sold_range_start := some (min 5 11),
            bulk_sold_range_end := some (max 10 20),
            bulk_buyer_name := some "New",
            bulk_buyer_email := coalesce none evBulk510.bulk_buyer_email,
            bulk_buyer_phone := coalesce (some "p") evBulk510.bulk_buyer_phone } :=
  (update_event_bulk_range_spec evBulk510 11 20 (some "New") none (some "p")).2.2.2.1
    5 10 rfl rfl (by decide) (by decide) (by decide) (by decide) (by decide)

/-- An event with range 1..100 and no bulk range yet. -/
def evFresh : EventRow :=
  { range_start := 1, range_end := 100,
    bulk_sold_range_start := none, bulk_sold_range_end := none,
    bulk_buyer_name := none, bulk_buyer_email := none,
    bulk_buyer_phone := none }

/-- C2 counterexample: A = [5,10] and B = [1,2] lie in the event range
1..100 and satisfy A.end + 1 >= B.start (11 >= 1, the stated one-sided
condition), yet proposing A then B leaves bulk range [5,10], proposing B
then A leaves [1,2], and neither order produces [1,10]: the one-sided
adjacency condition does not make the two orders agree. -/
theorem propose_order_dependent_cex :
    ((10 : Int) + 1 ≥ 1 ∨ (2 : Int) + 1 ≥ 5)
    ∧ (applyPropose (applyPropose evFresh 5 10 (some "A") none none)
        1 2 (some "B") none none).bulk_sold_range_start = some 5
    ∧ (applyPropose (applyPropose evFresh 5 10 (some "A") none none)
        1 2 (some "B") none none).bulk_sold_range_end = some 10
    ∧ (applyPropose (applyPropose evFresh 1 2 (some "B") none none)
        5 10 (some "A") none none).bulk_sold_range_start = some 1
    ∧ (applyPropose (applyPropose evFresh 1 2 (some "B") none none)
        5 10 (some "A") none none).bulk_sold_range_end = some 2
    ∧ applyPropose (applyPropose evFresh 5 10 (some "A") none none)
        1 2 (some "B") none none ≠
      applyPropose (applyPropose evFresh 1 2 (some "B") none none)
        5 10 (some "A") none none := by
  decide

/-- C2 amended: when the two intervals overlap or are adjacent in the
symmetric sense (A.start <= B.end + 1 AND B.start <= A.end + 1), both
within the event range and each nonempty, proposing them in either order
on an event with no existing bulk range succeeds and yields the same
merged bulk interval [min of starts, max of ends]. -/
theorem propose_merge_comm (ev : EventRow) (As Ae Bs Be : Int)
    (n1 e1 p1 n2 e2 p2 : Option String)
    (hbs : ev.bulk_sold_range_start = none)
    (hbe : ev.bulk_sold_range_end = none)
    (hA1 : ev.range_start ≤ As) (hA2 : Ae ≤ ev.range_end) (hA3 : As ≤ Ae)
    (hB1 : ev.range_start ≤ Bs) (hB2 : Be ≤ ev.range_end) (hB3 : Bs ≤ Be)
    (hadj1 : As ≤ Be + 1) (hadj2 : Bs ≤ Ae + 1) :
    ((applyPropose (applyPropose ev As Ae n1 e1 p1) Bs Be n2 e2 p2).bulk_sold_range_start
        = some (min As Bs)
    ∧ (applyPropose (applyPropose ev As Ae n1 e1 p1) Bs Be n2 e2 p2).bulk_sold_range_end
        = some (max Ae Be))
    ∧ ((applyPropose (applyPropose ev Bs Be n2 e2 p2) As Ae n1 e1 p1).bulk_sold_range_start
        = some (min As Bs)
    ∧ (applyPropose (applyPropose ev Bs Be n2 e2 p2) As Ae n1 e1 p1).bulk_sold_range_end
        = some (max Ae Be)) := by
  have hfirst : ∀ s e n p q, ev.range_start ≤ s → e ≤ ev.range_end → s ≤ e →
      applyPropose ev s e n p q =
        { ev with bulk_sold_range_start := some s, bulk_sold_range_end := some e,
                  bulk_buyer_name := n, bulk_buyer_email := p, bulk_buyer_phone := q } := by
    intro s e n p q h1 h2 h3
    rw [applyPropose, update_event_bulk_range, if_neg (by omega), if_neg (by omega), hbs, hbe]
  have hsecond : ∀ (ev2 : EventRow) s e cs ce n p q,
      ev2.range_start = ev.range_start → ev2.range_end = ev.range_end →
      ev2.bulk_sold_range_start = some cs → ev2.bulk_sold_range_end = some ce →
      ev.range_start ≤ s → e ≤ ev.range_end → s ≤ e →
      s ≤ ce + 1 → e ≥ cs - 1 →
      (applyPropose ev2 s e n p q).bulk_sold_range_start = some (min cs s)
      ∧ (applyPropose ev2 s e n p q).bulk_sold_range_end = some (max ce e) := by
    intro ev2 s e cs ce n p q hr1 hr2 hc1 hc2 h1 h2 h3 h4 h5
    rw [applyPropose]
    simp only [update_event_bulk_range, hc1, hc2, hr1, hr2]
    rw [if_neg (by omega), if_neg (by omega), if_pos ⟨h4, h5⟩]
    exact ⟨rfl, rfl⟩
  constructor
  · rw [hfirst As Ae n1 e1 p1 hA1 hA2 hA3]
    exact hsecond
      { ev with bulk_sold_range_start := some As, bulk_sold_range_end := some Ae,
                bulk_buyer_name := n1, bulk_buyer_email := e1, bulk_buyer_phone := p1 }
      Bs Be As Ae n2 e2 p2 rfl rfl rfl rfl hB1 hB2 hB3 (by omega) (by omega)
  · rw [hfirst Bs Be n2 e2 p2 hB1 hB2 hB3]
    have h := hsecond
      { ev with bulk_sold_range_start := some Bs, bulk_sold_range_end := some Be,
                bulk_buyer_name := n2, bulk_buyer_email := e2, bulk_buyer_phone := p2 }
      As Ae Bs Be n1 e1 p1 rfl rfl rfl rfl hA1 hA2 hA3 (by omega) (by omega)
    rw [min_comm Bs As, max_comm Be Ae] at h
    exact h

/-- Witness for the amended C2 at adjacent intervals [1,10] and [11,20]. -/
theorem propose_merge_comm_witness :
    ((applyPropose (applyPropose evFresh 1 10 (some "A") none none)
        11 20 (some "B") none none).bulk_sold_range_start = some (min 1 11)
    ∧ (applyPropose (applyPropose evFresh 1 10 (some "A") none none)
        11 20 (some "B") none none).bulk_sold_range_end = some (max 10 20))
    ∧ ((applyPropose (applyPropose evFresh 11 20 (some "B") none none)
        1 10 (some "A") none none).bulk_sold_range_start = some (min 1 11)
    ∧ (applyPropose (applyPropose evFresh 11 20 (some "B") none none)
        1 10 (some "A") none none).bulk_sold_range_end = some (max 10 20)) :=
  propose_merge_comm evFresh 1 10 11 20 (some "A") none none (some "B") none none
    rfl rfl (by decide) (by decide) (by decide) (by decide) (by decide) (by decide)
    (by decide) (by decide)

/-! Cashier page, first variant: getAvailableRange returning the larger of
the two free segments (ties go to the after-bulk segment), and the bulk
containment check isTicketInBulkRange. -/

/-- getAvailableRange of the first Cashier component: full range when the
bulk columns are falsy, none when the bulk range covers the event range,
otherwise the larger of the before-bulk and after-bulk segments (the
after segment on a tie). -/
def getAvailableRange (ev : EventRow) : Option (Int × Int) :=
  if ¬ truthyInt ev.bulk_sold_range_start ∨ ¬ truthyInt ev.bulk_sold_range_end then
    some (ev.range_start, ev.range_end)
  else
    let bulkStart := ev.bulk_sold_range_start.getD 0
    let bulkEnd := ev.bulk_sold_range_end.getD 0
    if bulkStart ≤ ev.range_start ∧ bulkEnd ≥ ev.range_end then
      none
    else
      let beforeBulk := if bulkStart > ev.range_start then
        some (ev.range_start, bulkStart - 1) else none
      let afterBulk := if bulkEnd < ev.range_end then
        some (bulkEnd + 1, ev.range_end) else none
      match beforeBulk, afterBulk with
      | some b, some a =>
          let beforeSize := b.2 - b.1 + 1
          let afterSize := a.2 - a.1 + 1
          if afterSize ≥ beforeSize then some a else some b
      | some b, none => some b
      | none, some a => some a
      | none, none => none

/-- getAvailableRange of the second Cashier component: none on the (0,0)
sentinel range, full range when the bulk columns are falsy, otherwise the
first of the collected free segments (the before-bulk segment when it is
non-empty). -/
def getAvailableRangeV2 (ev : EventRow) : Option (Int × Int) :=
  if ev.range_start = 0 ∧ ev.range_end = 0 then
    none
  else if ¬ truthyInt ev.bulk_sold_range_start ∨ ¬ truthyInt ev.bulk_sold_range_end then
    some (ev.range_start, ev.range_end)
  else
    let bulkStart := ev.bulk_sold_range_start.getD 0
    let bulkEnd := ev.bulk_sold_range_end.getD 0
    let availableRanges :=
      (if ev.range_start < bulkStart then [(ev.range_start, bulkStart - 1)] else [])
      ++ (if bulkEnd < ev.range_end then [(bulkEnd + 1, ev.range_end)] else [])
    availableRanges.head?

/-- isTicketInBulkRange of the Cashier component: false when the bulk
columns are falsy, containment in [bulk start, bulk end] otherwise. -/
def isTicketInBulkRange (ticketNum : Int) (ev : EventRow) : Bool :=
  if ¬ truthyInt ev.bulk_sold_range_start ∨ ¬ truthyInt ev.bulk_sold_range_end then
    false
  else
    decide (ev.bulk_sold_range_start.getD 0 ≤ ticketNum
      ∧ ticketNum ≤ ev.bulk_sold_range_end.getD 0)

/-- Membership of a ticket number in the interval returned by
getAvailableRange; false when no interval is available. -/
def inAvailableRange (ev : EventRow) (n : Int) : Bool :=
  match getAvailableRange ev with
  | none => false
  | some r => decide (r.1 ≤ n ∧ n ≤ r.2)

/-- Case analysis of getAvailableRange on an event whose bulk columns are
set and truthy, following the branches of the source function. -/
theorem getAvailableRange_cases (ev : EventRow) (bs be : Int)
    (hbs : ev.bulk_sold_range_start = some bs)
    (hbe : ev.bulk_sold_range_end = some be)
    (hbs0 : bs ≠ 0) (hbe0 : be ≠ 0) :
    (bs ≤ ev.range_start ∧ be ≥ ev.range_end ∧ getAvailableRange ev = none)
    ∨ (ev.range_start < bs ∧ be < ev.range_end
        ∧ ev.range_end - be ≥ bs - ev.range_start
        ∧ getAvailableRange ev = some (be + 1, ev.range_end))
    ∨ (ev.range_start < bs ∧ be < ev.range_end
        ∧ ev.range_end - be < bs - ev.range_start
        ∧ getAvailableRange ev = some (ev.range_start, bs - 1))
    ∨ (ev.range_start < bs ∧ ¬ be < ev.range_end
        ∧ getAvailableRange ev = some (ev.range_start, bs - 1))
    ∨ (¬ ev.range_start < bs ∧ be < ev.range_end ∧ ¬ be ≥ ev.range_end
        ∧ getAvailableRange ev = some (be + 1, ev.range_end))
    ∨ (¬ ev.range_start < bs ∧ ¬ be < ev.range_end
        ∧ getAvailableRange ev = none) := by
  have hguard : ¬ (¬ truthyInt ev.bulk_sold_range_start = true
      ∨ ¬ truthyInt ev.bulk_sold_range_end = true) := by
    simp [truthyInt, hbs, hbe, hbs0, hbe0]
  rw [getAvailableRange]
  rw [if_neg hguard, hbs, hbe]
  simp only [Option.getD_some]
  by_cases hcov : bs ≤ ev.range_start ∧ be ≥ ev.range_end
  · exact Or.inl ⟨hcov.1, hcov.2, by rw [if_pos hcov]⟩
  · rw [if_neg hcov]
    by_cases hb : ev.range_start < bs
    · rw [if_pos hb]
      by_cases ha : be < ev.range_end
      · rw [if_pos ha]
        by_cases hsize : ev.range_end - (be + 1) + 1 ≥ bs - 1 - ev.range_start + 1
        · refine Or.inr (Or.inl ⟨hb, ha, by omega, ?_⟩)
          simp only [if_pos hsize]
        · refine Or.inr (Or.inr (Or.inl ⟨hb, ha, by omega, ?_⟩))
          simp only [if_neg hsize]
      · rw [if_neg ha]
        exact Or.inr (Or.inr (Or.inr (Or.inl ⟨hb, ha, rfl⟩)))
    · rw [if_neg hb]
      by_cases ha : be < ev.range_end
      · rw [if_pos ha]
        exact Or.inr (Or.inr (Or.inr (Or.inr (Or.inl ⟨hb, ha, by omega, rfl⟩))))
      · rw [if_neg ha]
        exact Or.inr (Or.inr (Or.inr (Or.inr (Or.inr ⟨hb, ha, rfl⟩))))

/-- An event with range 1..10 whose bulk range 3..4 is strictly interior:
both free segments are non-empty. -/
def evInterior : EventRow :=
  { range_start := 1, range_end := 10,
    bulk_sold_range_start := some 3, bulk_sold_range_end := some 4,
    bulk_buyer_name := none, bulk_buyer_email := none,
    bulk_buyer_phone := none }

/-- C3 counterexample: the event has a bulk range set and ticket number 1
lies in the event range, yet it is neither in the bulk range nor in the
cashier-available range (getAvailableRange returns the after segment
[5,10], abandoning the before segment): the two predicates are not
jointly exhaustive. -/
theorem partition_not_exhaustive_cex :
    truthyInt evInterior.bulk_sold_range_start = true
    ∧ truthyInt evInterior.bulk_sold_range_end = true
    ∧ evInterior.range_start ≤ 1 ∧ (1 : Int) ≤ evInterior.range_end
    ∧ isTicketInBulkRange 1 evInterior = false
    ∧ inAvailableRange evInterior 1 = false := by
  decide

/-- C3 amended: once a bulk range [bs,be] within the event range is set,
bulk membership and cashier availability are always mutually exclusive,
and they are jointly exhaustive over the event range whenever the bulk
range touches an end of the event range; when the bulk range is strictly
interior the free segment not returned by getAvailableRange is covered by
neither predicate. -/
theorem bulk_available_partition_spec (ev : EventRow) (bs be : Int)
    (hbs : ev.bulk_sold_range_start = some bs)
    (hbe : ev.bulk_sold_range_end = some be)
    (hbs0 : bs ≠ 0) (hbe0 : be ≠ 0)
    (h1 : ev.range_start ≤ bs) (h2 : bs ≤ be) (h3 : be ≤ ev.range_end) :
    (∀ n : Int, ¬ (isTicketInBulkRange n ev = true ∧ inAvailableRange ev n = true))
    ∧ ((bs = ev.range_start ∨ be = ev.range_end) →
      ∀ n : Int, ev.range_start ≤ n → n ≤ ev.range_end →
        (isTicketInBulkRange n ev = true ∨ inAvailableRange ev n = true)) := by
  have hbulkmem : ∀ n : Int,
      isTicketInBulkRange n ev = decide (bs ≤ n ∧ n ≤ be) := by
    intro n
    rw [isTicketInBulkRange,
      if_neg (by simp [truthyInt, hbs, hbe, hbs0, hbe0]), hbs, hbe]
    simp only [Option.getD_some]
  have hcases := getAvailableRange_cases ev bs be hbs hbe hbs0 hbe0
  constructor
  · intro n hcontra
    rcases hcontra with ⟨hin, hav⟩
    rw [hbulkmem, decide_eq_true_eq] at hin
    rw [inAvailableRange] at hav
    rcases hcases with ⟨hc, hc2, heq⟩ | ⟨hc, hc2, hc3, heq⟩ | ⟨hc, hc2, hc3, heq⟩ |
      ⟨hc, hc2, heq⟩ | ⟨hc, hc2, hc3, heq⟩ | ⟨hc, hc2, heq⟩ <;>
      rw [heq] at hav <;> simp at hav <;> omega
  · intro hend n hn1 hn2
    rw [hbulkmem, decide_eq_true_eq, inAvailableRange]
    rcases hcases with ⟨hc, hc2, heq⟩ | ⟨hc, hc2, hc3, heq⟩ | ⟨hc, hc2, hc3, heq⟩ |
      ⟨hc, hc2, heq⟩ | ⟨hc, hc2, hc3, heq⟩ | ⟨hc, hc2, heq⟩ <;>
      rw [heq] <;> simp <;> omega

/-- An event with range 1..100 and bulk range 1..10 touching the left
end of the range. -/
def evLeftBulk : EventRow :=
  { range_start := 1, range_end := 100,
    bulk_sold_range_start := some 1, bulk_sold_range_end := some 10,
    bulk_buyer_name := none, bulk_buyer_email := none,
    bulk_buyer_phone := none }

/-- Witness for the amended C3 on the event with range 1..100 and bulk
range 1..10 (touching the left end): number 5 is never in both
partitions, and number 7 is in one of them. -/
theorem bulk_available_partition_spec_witness :
    ¬ (isTicketInBulkRange 5 evLeftBulk = true
        ∧ inAvailableRange evLeftBulk 5 = true)
    ∧ (isTicketInBulkRange 7 evLeftBulk = true
        ∨ inAvailableRange evLeftBulk 7 = true) :=
  ⟨(bulk_available_partition_spec evLeftBulk 1 10 (by rfl) (by rfl) (by decide)
      (by decide) (by decide) (by decide) (by decide)).1 5,
    (bulk_available_partition_spec evLeftBulk 1 10 (by rfl) (by rfl) (by decide)
      (by decide) (by decide) (by decide) (by decide)).2 (Or.inl (by rfl)) 7
      (by decide) (by decide)⟩

/-- C4 counterexample: on the strictly interior event the first Cashier
component returns the after segment [5,10] while the second returns the
before segment [1,2]: the two getAvailableRange implementations are not
equivalent. -/
theorem availableRange_variants_differ_cex :
    getAvailableRange evInterior = some (5, 10)
    ∧ getAvailableRangeV2 evInterior = some (1, 2)
    ∧ getAvailableRange evInterior ≠ getAvailableRangeV2 evInterior := by
  decide

/-- C4 amended: on events where both free segments are non-empty the two
implementations agree exactly when the before segment is strictly larger
than the after segment; the first variant picks the larger segment (ties
to the after segment), the second always picks the before segment. -/
theorem availableRange_variants_agree_iff (ev : EventRow) (bs be : Int)
    (hbs : ev.bulk_sold_range_start = some bs)
    (hbe : ev.bulk_sold_range_end = some be)
    (hbs0 : bs ≠ 0) (hbe0 : be ≠ 0)
    (h1 : ev.range_start < bs) (h2 : bs ≤ be) (h3 : be < ev.range_end) :
    getAvailableRange ev = getAvailableRangeV2 ev ↔ bs - ev.range_start > ev.range_end - be := by
  have hv2 : getAvailableRangeV2 ev = some (ev.range_start, bs - 1) := by
    rw [getAvailableRangeV2, if_neg (by omega),
      if_neg (by simp [truthyInt, hbs, hbe, hbs0, hbe0]), hbs, hbe]
    simp only [Option.getD_some]
    rw [if_pos (by omega), if_pos (by omega)]
    rfl
  rw [hv2]
  rcases getAvailableRange_cases ev bs be hbs hbe hbs0 hbe0 with
    ⟨hc, hc2, heq⟩ | ⟨hc, hc2, hc3, heq⟩ | ⟨hc, hc2, hc3, heq⟩ |
    ⟨hc, hc2, heq⟩ | ⟨hc, hc2, hc3, heq⟩ | ⟨hc, hc2, heq⟩ <;>
    rw [heq]
  · exact absurd hc (by omega)
  · exact iff_of_false
      (by simp only [Option.some_inj, Prod.mk.injEq]; omega) (by omega)
  · exact iff_of_true rfl (by omega)
  · exact absurd h3 hc2
  · exact absurd h1 hc
  · exact absurd h1 hc

/-- An event whose before segment is strictly larger, for the C4 witness. -/
def evBeforeLarger : EventRow :=
  { range_start := 1, range_end := 10,
    bulk_sold_range_start := some 8, bulk_sold_range_end := some 9,
    bulk_buyer_name := none, bulk_buyer_email := none,
    bulk_buyer_phone := none }

/-- Witness for the amended C4: with before segment [1,7] larger than
after segment [10,10], both implementations return the before segment. -/
theorem availableRange_variants_agree_iff_witness :
    getAvailableRange evBeforeLarger = getAvailableRangeV2 evBeforeLarger :=
  (availableRange_variants_agree_iff evBeforeLarger 8 9 rfl rfl
    (by decide) (by decide) (by decide) (by decide) (by decide)).mpr (by decide)

/-! Sale Processor: the sell path of the Cashier handleSubmit, for a
ticket row that was fetched as existing.  The fetched snapshot is passed
separately from the store against which the conditional UPDATE runs, so
that an interleaved concurrent sale between fetch and update is
expressible.  The store layer reports the number of affected rows of a
conditional UPDATE; no store-level failures are modelled, so the rollback
branch for a failed sales insert is unreachable and not embedded. -/

/-- A row of the sales table. -/
structure SaleRecord where
  ticket_id : Nat
  cashier_id : Nat
  amount : Int
deriving DecidableEq, Repr

/-- The tickets and sales tables seen by the Sale Processor. -/
structure SellStore where
  tickets : List TicketRecord
  sales : List SaleRecord
deriving DecidableEq, Repr

inductive SellResult where
  | success
  | alreadySold
  | alreadyUsed
  | bulkNotSellable
deriving DecidableEq, Repr

/-- The conditional UPDATE tickets SET status=sold, buyer, sold_at,
sold_by WHERE id = tid AND status=available.  Returns the updated table
and the number of affected rows (which the source never inspects). -/
def condUpdateToSold (st : SellStore) (tid : Nat) (buyerName : String)
    (buyerEmail buyerPhone : Option String) (now actor : Nat) :
    SellStore × Nat :=
  let updated := st.tickets.map fun t =>
    if t.id = tid ∧ t.status = .available then
      { t with status := .sold, buyer_name := some buyerName,
               buyer_email := buyerEmail, buyer_phone := buyerPhone,
               sold_at := some now, sold_by := some actor }
    else t
  let affected := (st.tickets.filter fun t =>
    decide (t.id = tid ∧ t.status = TicketStatus.available)).length
  ({ st with tickets := updated }, affected)

/-- The handleSubmit continuation for an existing fetched ticket: reject
sold, used and bulk snapshots, otherwise run the conditional UPDATE
(ignoring its affected-row count, as the source does) and insert the
sales row. -/
def sellExistingTicket (snapshot : TicketRecord) (buyerName : String)
    (buyerEmail buyerPhone : Option String) (amount : Int)
    (now actor : Nat) (st : SellStore) : SellResult × SellStore :=
  if snapshot.status = .sold then (.alreadySold, st)
  else if snapshot.status = .used then (.alreadyUsed, st)
  else if snapshot.sale_type = .bulk then (.bulkNotSellable, st)
  else
    let upd := condUpdateToSold st snapshot.id buyerName buyerEmail
      buyerPhone now actor
    let st2 := { upd.1 with
      sales := upd.1.sales ++ [⟨snapshot.id, actor, amount⟩] }
    (.success, st2)

/-- Ticket number 50 of the race scenario, still available. -/
def ticket50 : TicketRecord :=
  { id := 1, ticket_number := 50, ticket_code := "T0050",
    qr_data := "QR50", status := .available, sale_type := .cashier,
    buyer_name := none, buyer_email := none, buyer_phone := none,
    sold_at := none, sold_by := none, scanned_at := none,
    scanned_by := none }

/-- The store after the first cashier completed the sale of ticket 50. -/
def storeAfterFirstSale : SellStore :=
  (sellExistingTicket ticket50 "Ann" none none 50 10 7
    { tickets := [ticket50], sales := [] }).2

/-- C5: both of two racing sales of ticket 50 report success.  Cashier 7
and cashier 8 both fetch the ticket while it is available; cashier 7
commits first; cashier 8 continues from its stale snapshot: the guarded
UPDATE ... WHERE status=available matches zero rows, but the source never
inspects the affected-row count, so the second sale also returns success
and inserts a second sales row for the same ticket, instead of failing
with a concurrent-sale conflict and inserting nothing. -/
theorem sell_race_both_succeed :
    (sellExistingTicket ticket50 "Ann" none none 50 10 7
      { tickets := [ticket50], sales := [] }).1 = .success
    ∧ (condUpdateToSold storeAfterFirstSale ticket50.id "Bob" none none 11 8).2 = 0
    ∧ (sellExistingTicket ticket50 "Bob" none none 50 11 8 storeAfterFirstSale).1
        = .success
    ∧ (sellExistingTicket ticket50 "Bob" none none 50 11 8 storeAfterFirstSale).2.sales
        = [⟨1, 7, 50⟩, ⟨1, 8, 50⟩]
    ∧ ((sellExistingTicket ticket50 "Bob" none none 50 11 8 storeAfterFirstSale).2.tickets.map
        (fun t => t.buyer_name)) = [some "Ann"] := by
  decide

/-! Admission Validator: the two Scanner components. -/

/-- The per-ticket validation of the first Scanner component: range check,
then status check (available and used are invalid), then for sold tickets
the sale-channel consistency check against the current bulk bounds. -/
def validateTicketForEvent (ticket : TicketRecord) (event : EventRow) :
    Bool × String :=
  if ticket.ticket_number < event.range_start
      ∨ ticket.ticket_number > event.range_end then
    (false, "Ticket outside event range")
  else if ticket.status = .available then
    (false, "Ticket not sold yet")
  else if ticket.status = .used then
    (false, "Ticket already used")
  else if ticket.status = .sold then
    match ticket.sale_type with
    | .bulk =>
        if truthyInt event.bulk_sold_range_start
            ∧ truthyInt event.bulk_sold_range_end then
          if event.bulk_sold_range_start.getD 0 ≤ ticket.ticket_number
              ∧ ticket.ticket_number ≤ event.bulk_sold_range_end.getD 0 then
            (true, "Valid bulk ticket")
          else (false, "Bulk ticket outside bulk range")
        else (false, "Bulk ticket outside bulk range")
    | .cashier =>
        if truthyInt event.bulk_sold_range_start
            ∧ truthyInt event.bulk_sold_range_end then
          if event.bulk_sold_range_start.getD 0 ≤ ticket.ticket_number
              ∧ ticket.ticket_number ≤ event.bulk_sold_range_end.getD 0 then
            (false, "Cashier ticket in bulk range - invalid")
          else (true, "Valid cashier ticket")
        else (true, "Valid cashier ticket")
  else
    (false, "Invalid ticket status or type")

inductive Verdict where
  | invalid
  | duplicate
  | accepted
deriving DecidableEq, Repr

/-- The scan outcome shown by the first Scanner component: verdict,
message, and the scanned_at timestamp when one is attached. -/
structure LastScan where
  verdict : Verdict
  message : String
  scanned_at : Option Nat
deriving DecidableEq, Repr

/-- handleScan of the first Scanner component, applied to the ticket
looked up by QR code (none when not found): runs
validateTicketForEvent first and returns an invalid verdict on any
failed validation; only afterwards does it test for a used status, so
the duplicate branch is reachable only for tickets that passed
validation.  On acceptance the status is set to used by a conditional
UPDATE ... WHERE status=sold. -/
def handleScan (ticket? : Option TicketRecord) (event : EventRow)
    (now actor : Nat) (tickets : List TicketRecord) :
    LastScan × List TicketRecord :=
  match ticket? with
  | none => (⟨.invalid, "Ticket not found", none⟩, tickets)
  | some ticket =>
    let validation := validateTicketForEvent ticket event
    if validation.1 = false then
      (⟨.invalid, validation.2, none⟩, tickets)
    else if ticket.status = .used then
      (⟨.duplicate, "Already scanned", ticket.scanned_at⟩, tickets)
    else
      let tickets2 := tickets.map fun t =>
        if t.id = ticket.id ∧ t.status = .sold then
          { t with status := .used, scanned_at := some now,
                   scanned_by := some actor }
        else t
      (⟨.accepted, "Access granted", some now⟩, tickets2)

/-- C6: scanning a used ticket yields verdict invalid, not duplicate.
validateTicketForEvent marks every used ticket invalid, and handleScan
returns on failed validation before reaching its duplicate branch, so
the result carries no prior scanned_at timestamp; in range the message
is the validation reason "Ticket already used". -/
theorem scan_used_ticket_invalid_verdict (t : TicketRecord) (ev : EventRow)
    (now actor : Nat) (ts : List TicketRecord)
    (hused : t.status = .used) :
    (validateTicketForEvent t ev).1 = false
    ∧ (handleScan (some t) ev now actor ts).1.verdict = .invalid
    ∧ (handleScan (some t) ev now actor ts).1.scanned_at = none
    ∧ (ev.range_start ≤ t.ticket_number → t.ticket_number ≤ ev.range_end →
        (handleScan (some t) ev now actor ts).1.message = "Ticket already used") := by
  have hval : (validateTicketForEvent t ev).1 = false := by
    rw [validateTicketForEvent]
    by_cases h1 : t.ticket_number < ev.range_start ∨ t.ticket_number > ev.range_end
    · rw [if_pos h1]
    · rw [if_neg h1, if_neg (by simp [hused]), if_pos hused]
  have hscan : handleScan (some t) ev now actor ts
      = (⟨.invalid, (validateTicketForEvent t ev).2, none⟩, ts) := by
    simp only [handleScan]
    rw [if_pos hval]
  refine ⟨hval, ?_, ?_, ?_⟩
  · rw [hscan]
  · rw [hscan]
  · intro hr1 hr2
    rw [hscan]
    show (validateTicketForEvent t ev).2 = "Ticket already used"
    rw [validateTicketForEvent, if_neg (by omega), if_neg (by simp [hused]),
      if_pos hused]

/-- A used ticket inside the event range, for the C6 witness. -/
def usedTicket : TicketRecord :=
  { id := 2, ticket_number := 7, ticket_code := "T0007",
    qr_data := "QR7", status := .used, sale_type := .cashier,
    buyer_name := some "Jo", buyer_email := none, buyer_phone := none,
    sold_at := some 1, sold_by := some 7, scanned_at := some 5,
    scanned_by := some 9 }

/-- Witness for C6 on a concrete used ticket of the 1..10 event. -/
theorem scan_used_ticket_invalid_verdict_witness :
    (validateTicketForEvent usedTicket evInterior).1 = false
    ∧ (handleScan (some usedTicket) evInterior 20 9 [usedTicket]).1.verdict = .invalid
    ∧ (handleScan (some usedTicket) evInterior 20 9 [usedTicket]).1.scanned_at = none
    ∧ (evInterior.range_start ≤ usedTicket.ticket_number →
        usedTicket.ticket_number ≤ evInterior.range_end →
        (handleScan (some usedTicket) evInterior 20 9 [usedTicket]).1.message
          = "Ticket already used") :=
  scan_used_ticket_invalid_verdict usedTicket evInterior 20 9 [usedTicket] rfl

/-- Result messages of the second Scanner component (the source formats
them as interpolated strings; they are embedded as tags, the already-used
one carrying the prior scan timestamp it reports). -/
inductive ScanV2Msg where
  | notFound
  | notSoldYet
  | alreadyUsed (scannedAt : Option Nat)
  | scannedSuccessfully
  | unexpectedStatus
deriving DecidableEq, Repr

/-- handleScan of the second Scanner component, applied to the ticket
looked up by QR code or number: checks only the ticket status.  A sold
ticket is marked used by a conditional UPDATE ... WHERE status=sold and
accepted; no event-range or sale-channel check is performed. -/
def handleScanV2 (ticket? : Option TicketRecord) (now actor : Nat)
    (tickets : List TicketRecord) :
    (Bool × ScanV2Msg) × List TicketRecord :=
  match ticket? with
  | none => ((false, .notFound), tickets)
  | some ticket =>
    if ticket.status = .available then ((false, .notSoldYet), tickets)
    else if ticket.status = .used then
      ((false, .alreadyUsed ticket.scanned_at), tickets)
    else if ticket.status = .sold then
      let tickets2 := tickets.map fun t =>
        if t.id = ticket.id ∧ t.status = .sold then
          { t with status := .used, scanned_at := some now,
                   scanned_by := some actor }
        else t
      ((true, .scannedSuccessfully), tickets2)
    else ((false, .unexpectedStatus), tickets)

/-- A sold bulk-channel ticket whose number 50 lies outside the 1..10
bulk bounds of its event. -/
def strayBulkTicket : TicketRecord :=
  { id := 3, ticket_number := 50, ticket_code := "T0050",
    qr_data := "QR50B", status := .sold, sale_type := .bulk,
    buyer_name := some "Acme", buyer_email := none, buyer_phone := none,
    sold_at := some 1, sold_by := some 7, scanned_at := none,
    scanned_by := none }

/-- The event of the stray bulk ticket: range 1..100, bulk bounds 1..10. -/
def evBulk110 : EventRow :=
  { range_start := 1, range_end := 100,
    bulk_sold_range_start := some 1, bulk_sold_range_end := some 10,
    bulk_buyer_name := some "Acme", bulk_buyer_email := none,
    bulk_buyer_phone := none }

/-- C7 counterexample: the second Scanner component accepts a scan of a
sold bulk ticket whose number lies outside the current bulk bounds (and
would accept a cashier ticket inside them equally): the channel
consistency check is not applied on this scan path, although
validateTicketForEvent of the other Scanner component rejects the same
ticket. -/
theorem scanV2_skips_channel_check_cex :
    strayBulkTicket.status = .sold
    ∧ strayBulkTicket.sale_type = .bulk
    ∧ isTicketInBulkRange strayBulkTicket.ticket_number evBulk110 = false
    ∧ (handleScanV2 (some strayBulkTicket) 30 9 [strayBulkTicket]).1.1 = true
    ∧ (handleScanV2 (some strayBulkTicket) 30 9 [strayBulkTicket]).1.2
        = .scannedSuccessfully
    ∧ validateTicketForEvent strayBulkTicket evBulk110
        = (false, "Bulk ticket outside bulk range") := by
  decide

/-- C7 amended: the channel consistency check is applied only by the
Scanner variant that calls validateTicketForEvent: there, an in-range
sold bulk ticket is valid exactly when its number is inside the current
bulk bounds (reason "Bulk ticket outside bulk range" otherwise) and an
in-range sold cashier ticket is valid exactly when its number is outside
them (reason "Cashier ticket in bulk range - invalid" otherwise); the
second Scanner variant accepts every sold ticket with no channel check. -/
theorem channel_consistency_spec (t : TicketRecord) (ev : EventRow)
    (now actor : Nat) (ts : List TicketRecord)
    (hsold : t.status = .sold)
    (hr1 : ev.range_start ≤ t.ticket_number)
    (hr2 : t.ticket_number ≤ ev.range_end) :
    (t.sale_type = .bulk →
      ((validateTicketForEvent t ev).1 = true
          ↔ isTicketInBulkRange t.ticket_number ev = true)
      ∧ ((validateTicketForEvent t ev).1 = false →
          (validateTicketForEvent t ev).2 = "Bulk ticket outside bulk range"))
    ∧ (t.sale_type = .cashier →
      ((validateTicketForEvent t ev).1 = true
          ↔ isTicketInBulkRange t.ticket_number ev = false)
      ∧ ((validateTicketForEvent t ev).1 = false →
          (validateTicketForEvent t ev).2 = "Cashier ticket in bulk range - invalid"))
    ∧ (handleScanV2 (some t) now actor ts).1.1 = true := by
  have hv2 : (handleScanV2 (some t) now actor ts).1.1 = true := by
    simp only [handleScanV2]
    rw [if_neg (by simp [hsold]), if_neg (by simp [hsold]), if_pos hsold]
  have hval : validateTicketForEvent t ev =
      match t.sale_type with
      | .bulk =>
          if truthyInt ev.bulk_sold_range_start
              ∧ truthyInt ev.bulk_sold_range_end then
            if ev.bulk_sold_range_start.getD 0 ≤ t.ticket_number
                ∧ t.ticket_number ≤ ev.bulk_sold_range_end.getD 0 then
              (true, "Valid bulk ticket")
            else (false, "Bulk ticket outside bulk range")
          else (false, "Bulk ticket outside bulk range")
      | .cashier =>
          if truthyInt ev.bulk_sold_range_start
              ∧ truthyInt ev.bulk_sold_range_end then
            if ev.bulk_sold_range_start.getD 0 ≤ t.ticket_number
                ∧ t.ticket_number ≤ ev.bulk_sold_range_end.getD 0 then
              (false, "Cashier ticket in bulk range - invalid")
            else (true, "Valid cashier ticket")
          else (true, "Valid cashier ticket") := by
    rw [validateTicketForEvent, if_neg (by omega), if_neg (by simp [hsold]),
      if_neg (by simp [hsold]), if_pos hsold]
  have hmem : isTicketInBulkRange t.ticket_number ev =
      (decide (truthyInt ev.bulk_sold_range_start = true
        ∧ truthyInt ev.bulk_sold_range_end = true)
      && decide (ev.bulk_sold_range_start.getD 0 ≤ t.ticket_number
        ∧ t.ticket_number ≤ ev.bulk_sold_range_end.getD 0)) := by
    rw [isTicketInBulkRange]
    by_cases hset : truthyInt ev.bulk_sold_range_start = true
      ∧ truthyInt ev.bulk_sold_range_end = true
    · rw [if_neg (by simp [hset.1, hset.2])]
      simp [hset]
    · rw [if_pos (by
        rcases Decidable.not_and_iff_or_not.mp hset with h | h <;>
          simp [eq_false_of_ne_true h]
        )]
      simp [hset]
  refine ⟨?_, ?_, hv2⟩
  · intro hbulk
    rw [hval, hbulk, hmem]
    by_cases hset : truthyInt ev.bulk_sold_range_start = true
      ∧ truthyInt ev.bulk_sold_range_end = true
    · by_cases hin : ev.bulk_sold_range_start.getD 0 ≤ t.ticket_number
        ∧ t.ticket_number ≤ ev.bulk_sold_range_end.getD 0
      · simp [hset, hin]
      · simp [hset, hin]
    · simp [hset]
  · intro hcash
    rw [hval, hcash, hmem]
    by_cases hset : truthyInt ev.bulk_sold_range_start = true
      ∧ truthyInt ev.bulk_sold_range_end = true
    · by_cases hin : ev.bulk_sold_range_start.getD 0 ≤ t.ticket_number
        ∧ t.ticket_number ≤ ev.bulk_sold_range_end.getD 0
      · simp [hset, hin]
      · simp [hset, hin]
    · simp [hset]

/-- A sold cashier ticket with number 50, outside the 1..10 bulk bounds. -/
def cashierTicket50 : TicketRecord :=
  { id := 4, ticket_number := 50, ticket_code := "T0050",
    qr_data := "QR50C", status := .sold, sale_type := .cashier,
    buyer_name := some "Jo", buyer_email := none, buyer_phone := none,
    sold_at := some 2, sold_by := some 7, scanned_at := none,
    scanned_by := none }

/-- Witness for the amended C7 on a concrete sold cashier ticket. -/
theorem channel_consistency_spec_witness :
    ((cashierTicket50.sale_type = .bulk →
      ((validateTicketForEvent cashierTicket50 evBulk110).1 = true
          ↔ isTicketInBulkRange cashierTicket50.ticket_number evBulk110 = true)
      ∧ ((validateTicketForEvent cashierTicket50 evBulk110).1 = false →
          (validateTicketForEvent cashierTicket50 evBulk110).2
            = "Bulk ticket outside bulk range"))
    ∧ (cashierTicket50.sale_type = .cashier →
      ((validateTicketForEvent cashierTicket50 evBulk110).1 = true
          ↔ isTicketInBulkRange cashierTicket50.ticket_number evBulk110 = false)
      ∧ ((validateTicketForEvent cashierTicket50 evBulk110).1 = false →
          (validateTicketForEvent cashierTicket50 evBulk110).2
            = "Cashier ticket in bulk range - invalid"))
    ∧ (handleScanV2 (some cashierTicket50) 31 9 [cashierTicket50]).1.1 = true) :=
  channel_consistency_spec cashierTicket50 evBulk110 31 9 [cashierTicket50]
    rfl (by decide) (by decide)

/-! Ingestion Pipeline: handleUpload of the Upload page, plus the event
creation handleCreateEvent.  The uploaded CSV rows arrive parsed as
(ticketNumber, ticketCode, qrData) triples; the source sorts the numbers
ascending and takes the first and last as the new event range, embedded
with insertionSort (a stable comparison sort, as Array.sort with a
numeric comparator).  Bulk rows are written by upsert on the unique key
(event_id, ticket_number) with conflicting rows overwritten; available
rows are written by insert, a uniqueness conflict failing that single
row. -/

/-- A parsed CSV row (the TicketRow interface of the Upload page). -/
structure TicketRow where
  ticketNumber : Int
  ticketCode : String
  qrData : String
deriving DecidableEq, Repr

/-- The events row and tickets table seen by the Ingestion Pipeline. -/
structure UpStore where
  event : EventRow
  tickets : List TicketRecord
deriving DecidableEq, Repr

/-- Point lookup of a ticket by number. -/
def findTicket (tickets : List TicketRecord) (n : Int) : Option TicketRecord :=
  tickets.find? fun t => t.ticket_number == n

/-- Upsert on the unique key ticket_number: the conflicting row (unique,
by the key) keeps its row identity but all inserted columns are
overwritten; with no conflict the row is appended. -/
def upsertTicket : List TicketRecord → TicketRecord → List TicketRecord
  | [], r => [r]
  | t :: ts, r =>
      if t.ticket_number = r.ticket_number then { r with id := t.id } :: ts
      else t :: upsertTicket ts r

/-- Insert with uniqueness-conflict reporting: a pre-existing ticket
number fails the insert (false) and leaves the table unchanged. -/
def insertTicket (tickets : List TicketRecord) (r : TicketRecord) :
    List TicketRecord × Bool :=
  if tickets.any fun t => t.ticket_number == r.ticket_number then (tickets, false)
  else (tickets ++ [r], true)

/-- The ticket row written for a bulk-partition CSV row: sold, bulk
channel, the supplied bulk buyer. -/
def bulkTicketData (r : TicketRow) (buyerName : String)
    (buyerEmail buyerPhone : Option String) (now actor : Nat) : TicketRecord :=
  { id := 0, ticket_number := r.ticketNumber, ticket_code := r.ticketCode,
    qr_data := r.qrData, status := .sold, sale_type := .bulk,
    buyer_name := some buyerName, buyer_email := buyerEmail,
    buyer_phone := buyerPhone, sold_at := some now, sold_by := some actor,
    scanned_at := none, scanned_by := none }

/-- The ticket row written for an available-partition CSV row. -/
def availableTicketData (r : TicketRow) : TicketRecord :=
  { id := 0, ticket_number := r.ticketNumber, ticket_code := r.ticketCode,
    qr_data := r.qrData, status := .available, sale_type := .cashier,
    buyer_name := none, buyer_email := none, buyer_phone := none,
    sold_at := none, sold_by := none, scanned_at := none, scanned_by := none }

/-- The bulk phase: upsert every bulk-partition row in order. -/
def applyBulkUpserts (tickets : List TicketRecord) (rows : List TicketRow)
    (buyerName : String) (buyerEmail buyerPhone : Option String)
    (now actor : Nat) : List TicketRecord :=
  match rows with
  | [] => tickets
  | r :: rest =>
      applyBulkUpserts (upsertTicket tickets
        (bulkTicketData r buyerName buyerEmail buyerPhone now actor))
        rest buyerName buyerEmail buyerPhone now actor

/-- The available phase: insert every available-partition row in order,
counting per-row successes and failures (a failed row does not abort the
batch). -/
def applyAvailableInserts (tickets : List TicketRecord) (rows : List TicketRow) :
    List TicketRecord × Nat × Nat :=
  match rows with
  | [] => (tickets, 0, 0)
  | r :: rest =>
      let ins := insertTicket tickets (availableTicketData r)
      let res := applyAvailableInserts ins.1 rest
      (res.1, (if ins.2 then 1 else 0) + res.2.1,
        (if ins.2 then 0 else 1) + res.2.2)

/-- The smallest uploaded ticket number, computed as the source does: the
first element after an ascending sort. -/
def csvMinOf (rows : List TicketRow) : Int :=
  (List.insertionSort (· ≤ ·) (rows.map (·.ticketNumber))).head?.getD 0

/-- The largest uploaded ticket number: the last element after an
ascending sort. -/
def csvMaxOf (rows : List TicketRow) : Int :=
  (List.insertionSort (· ≤ ·) (rows.map (·.ticketNumber))).getLast?.getD 0

/-- Counts reported by handleUpload. -/
structure UploadResult where
  success : Nat
  failed : Nat
  bulkSold : Nat
  availableCreated : Nat
deriving DecidableEq, Repr

inductive UploadOutcome where
  | error (msg : String)
  | ok (res : UploadResult)
deriving DecidableEq, Repr

/-- The ticket-writing phase of handleUpload, run against the store whose
event range has already been updated (the bulk columns are unchanged by
that update, so the bulk bounds read here are the ones of the selected
event).  STEP 1 upserts the bulk partition when enabled, STEP 2 inserts
the available partition when enabled; the event row is not touched.
The rows inside the bulk bounds, written as sold bulk tickets. -/
def bulkPartition (ev : EventRow) (rows : List TicketRow) : List TicketRow :=
  rows.filter fun t =>
    decide (ev.bulk_sold_range_start.getD 0 ≤ t.ticketNumber
      ∧ t.ticketNumber ≤ ev.bulk_sold_range_end.getD 0)

/-- The rows outside the bulk bounds, written as available tickets. -/
def availablePartition (ev : EventRow) (rows : List TicketRow) : List TicketRow :=
  rows.filter fun t =>
    decide (t.ticketNumber < ev.bulk_sold_range_start.getD 0
      ∨ t.ticketNumber > ev.bulk_sold_range_end.getD 0)

/-- The two ticket-writing phases, against the store whose event row was
already updated. -/
def uploadTickets (st1 : UpStore) (rows : List TicketRow)
    (uploadBulkTickets createAvailableTickets : Bool)
    (bulkBuyerName : String) (bulkBuyerEmail bulkBuyerPhone : Option String)
    (now actor : Nat) : UploadOutcome × UpStore :=
  let tickets2 := if uploadBulkTickets then
      applyBulkUpserts st1.tickets (bulkPartition st1.event rows) bulkBuyerName
        bulkBuyerEmail bulkBuyerPhone now actor
    else st1.tickets
  let bulkSoldCount := if uploadBulkTickets then
      (bulkPartition st1.event rows).length
    else 0
  let avail := if createAvailableTickets then
      applyAvailableInserts tickets2 (availablePartition st1.event rows)
    else (tickets2, 0, 0)
  (.ok { success := bulkSoldCount + avail.2.1, failed := avail.2.2,
         bulkSold := bulkSoldCount, availableCreated := avail.2.1 },
    { st1 with tickets := avail.1 })

/-- handleUpload: requires the event to carry a (truthy) bulk range and a
non-empty row list, then unconditionally overwrites the event range with
the smallest and largest uploaded numbers (an UPDATE guarded only by the
valid_bulk_range CHECK of the store) before any ticket row is written,
and finally runs the two ticket-writing phases. -/
def handleUpload (st : UpStore) (rows : List TicketRow)
    (uploadBulkTickets createAvailableTickets : Bool)
    (bulkBuyerName : String) (bulkBuyerEmail bulkBuyerPhone : Option String)
    (now actor : Nat) : UploadOutcome × UpStore :=
  if ¬ truthyInt st.event.bulk_sold_range_start
      ∨ ¬ truthyInt st.event.bulk_sold_range_end then
    (.error "Event must have bulk range specified", st)
  else if rows.length = 0 then
    (.error "No valid tickets found in file", st)
  else if ¬ validBulkRange { st.event with
      range_start := csvMinOf rows, range_end := csvMaxOf rows } then
    (.error "Failed to update event range", st)
  else
    uploadTickets
      { st with event := { st.event with
          range_start := csvMinOf rows, range_end := csvMaxOf rows } }
      rows uploadBulkTickets createAvailableTickets bulkBuyerName
      bulkBuyerEmail bulkBuyerPhone now actor

/-- The first element of a list sorted ascending bounds it from below. -/
theorem sorted_headD_le {l : List Int}
    (hs : List.Sorted (· ≤ ·) l) : ∀ x ∈ l, l.head?.getD 0 ≤ x := by
  cases l with
  | nil => intro x hx; cases hx
  | cons a as =>
    intro x hx
    rcases List.mem_cons.mp hx with h | h
    · subst h; exact le_refl x
    · exact List.rel_of_sorted_cons hs x h

/-- The last element of a list sorted ascending bounds it from above. -/
theorem sorted_le_getLastD {l : List Int}
    (hs : List.Sorted (· ≤ ·) l) : ∀ x ∈ l, x ≤ l.getLast?.getD 0 := by
  induction l with
  | nil => intro x hx; cases hx
  | cons a as ih =>
    intro x hx
    cases as with
    | nil =>
      rcases List.mem_cons.mp hx with h | h
      · subst h; exact le_refl x
      · cases h
    | cons b bs =>
      rw [List.getLast?_cons_cons]
      rcases List.mem_cons.mp hx with h | h
      · subst h
        calc x ≤ b := List.rel_of_sorted_cons hs b (List.mem_cons_self b bs)
          _ ≤ (b :: bs).getLast?.getD 0 :=
            ih hs.of_cons b (List.mem_cons_self b bs)
      · exact ih hs.of_cons x h

/-- csvMinOf of a non-empty row list is the minimum uploaded number. -/
theorem csvMinOf_spec (rows : List TicketRow) (h : rows ≠ []) :
    csvMinOf rows ∈ rows.map (·.ticketNumber)
    ∧ ∀ x ∈ rows.map (·.ticketNumber), csvMinOf rows ≤ x := by
  have hperm := List.perm_insertionSort (α := Int) (· ≤ ·)
    (rows.map (·.ticketNumber))
  have hs := List.sorted_insertionSort (α := Int) (· ≤ ·)
    (rows.map (·.ticketNumber))
  constructor
  · have hne : List.insertionSort (· ≤ ·) (rows.map (·.ticketNumber)) ≠ [] := by
      intro h0
      rw [h0] at hperm
      exact h (List.map_eq_nil_iff.mp (hperm.symm.eq_nil))
    rw [csvMinOf]
    cases hcase : List.insertionSort (· ≤ ·) (rows.map (·.ticketNumber)) with
    | nil => exact absurd hcase hne
    | cons a as =>
      rw [hcase] at hperm
      exact hperm.subset (List.mem_cons_self a as)
  · intro x hx
    exact sorted_headD_le hs x (hperm.mem_iff.mpr hx)

/-- csvMaxOf of a non-empty row list is the maximum uploaded number. -/
theorem csvMaxOf_spec (rows : List TicketRow) (h : rows ≠ []) :
    csvMaxOf rows ∈ rows.map (·.ticketNumber)
    ∧ ∀ x ∈ rows.map (·.ticketNumber), x ≤ csvMaxOf rows := by
  have hperm := List.perm_insertionSort (α := Int) (· ≤ ·)
    (rows.map (·.ticketNumber))
  have hs := List.sorted_insertionSort (α := Int) (· ≤ ·)
    (rows.map (·.ticketNumber))
  have hne : List.insertionSort (· ≤ ·) (rows.map (·.ticketNumber)) ≠ [] := by
    intro h0
    rw [h0] at hperm
    exact h (List.map_eq_nil_iff.mp (hperm.symm.eq_nil))
  constructor
  · rw [csvMaxOf, List.getLast?_eq_getLast _ hne]
    exact hperm.subset (List.getLast_mem hne)
  · intro x hx
    exact sorted_le_getLastD hs x (hperm.mem_iff.mpr hx)

/-- Lookup after an upsert at the upserted number finds a row carrying
the upserted columns (the row identity may be the conflicting row's). -/
theorem findTicket_upsert_self (ts : List TicketRecord) (r : TicketRecord) :
    ∃ t, findTicket (upsertTicket ts r) r.ticket_number = some t
      ∧ t.sale_type = r.sale_type ∧ t.status = r.status
      ∧ t.buyer_name = r.buyer_name ∧ t.buyer_email = r.buyer_email
      ∧ t.buyer_phone = r.buyer_phone := by
  induction ts with
  | nil =>
    refine ⟨r, ?_, rfl, rfl, rfl, rfl, rfl⟩
    simp [upsertTicket, findTicket]
  | cons t ts ih =>
    by_cases h : t.ticket_number = r.ticket_number
    · refine ⟨{ r with id := t.id }, ?_, rfl, rfl, rfl, rfl, rfl⟩
      rw [upsertTicket, if_pos h, findTicket]
      rw [List.find?_cons_of_pos _ (by simp)]
    · rcases ih with ⟨t2, hfind, h1, h2, h3, h4, h5⟩
      refine ⟨t2, ?_, h1, h2, h3, h4, h5⟩
      rw [upsertTicket, if_neg h, findTicket]
      rw [List.find?_cons_of_neg _ (by simp [h])]
      exact hfind

/-- An upsert leaves lookups at every other number unchanged. -/
theorem findTicket_upsert_other (ts : List TicketRecord) (r : TicketRecord)
    (n : Int) (h : n ≠ r.ticket_number) :
    findTicket (upsertTicket ts r) n = findTicket ts n := by
  induction ts with
  | nil =>
    rw [upsertTicket, findTicket, findTicket]
    rw [List.find?_cons_of_neg _ (by simp; omega)]
  | cons t ts ih =>
    by_cases ht : t.ticket_number = r.ticket_number
    · rw [upsertTicket, if_pos ht, findTicket, findTicket]
      rw [List.find?_cons_of_neg _ (by simp; omega),
        List.find?_cons_of_neg _ (by simp; omega)]
    · rw [upsertTicket, if_neg ht, findTicket, findTicket]
      by_cases htn : t.ticket_number = n
      · rw [List.find?_cons_of_pos _ (by simp [htn]),
          List.find?_cons_of_pos _ (by simp [htn])]
      · rw [List.find?_cons_of_neg _ (by simp [htn]),
          List.find?_cons_of_neg _ (by simp [htn])]
        exact ih

/-- The bulk phase leaves lookups at numbers outside its rows unchanged. -/
theorem findTicket_applyBulkUpserts_not_mem (rows : List TicketRow) :
    ∀ (ts : List TicketRecord) (bn : String) (bem bp : Option String)
      (now actor : Nat) (n : Int), n ∉ rows.map (·.ticketNumber) →
      findTicket (applyBulkUpserts ts rows bn bem bp now actor) n
        = findTicket ts n := by
  induction rows with
  | nil => intro ts bn bem bp now actor n h; rfl
  | cons r rest ih =>
    intro ts bn bem bp now actor n h
    rw [List.map_cons, List.mem_cons] at h
    push_neg at h
    rw [applyBulkUpserts]
    rw [ih _ bn bem bp now actor n h.2]
    exact findTicket_upsert_other ts _ n (by simpa [bulkTicketData] using h.1)

/-- After the bulk phase, every number carried by one of its rows is
occupied by a sold, bulk-channel ticket with the supplied bulk buyer. -/
theorem findTicket_applyBulkUpserts_mem (rows : List TicketRow) :
    ∀ (ts : List TicketRecord) (bn : String) (bem bp : Option String)
      (now actor : Nat) (n : Int), n ∈ rows.map (·.ticketNumber) →
      ∃ t, findTicket (applyBulkUpserts ts rows bn bem bp now actor) n = some t
        ∧ t.sale_type = .bulk ∧ t.status = .sold ∧ t.buyer_name = some bn
        ∧ t.buyer_email = bem ∧ t.buyer_phone = bp := by
  induction rows with
  | nil => intro ts bn bem bp now actor n h; simp at h
  | cons r rest ih =>
    intro ts bn bem bp now actor n h
    by_cases hrest : n ∈ rest.map (·.ticketNumber)
    · rw [applyBulkUpserts]
      exact ih _ bn bem bp now actor n hrest
    · have hn : n = r.ticketNumber := by
        rw [List.map_cons, List.mem_cons] at h
        tauto
      rw [applyBulkUpserts,
        findTicket_applyBulkUpserts_not_mem rest _ bn bem bp now actor n hrest]
      subst hn
      simpa [bulkTicketData] using
        findTicket_upsert_self ts (bulkTicketData r bn bem bp now actor)

/-- The available phase never modifies an occupied ticket number: a
successful lookup before it is unchanged after it. -/
theorem findTicket_applyAvailableInserts (rows : List TicketRow) :
    ∀ (ts : List TicketRecord) (n : Int) (t : TicketRecord),
      findTicket ts n = some t →
      findTicket (applyAvailableInserts ts rows).1 n = some t := by
  induction rows with
  | nil => intro ts n t h; exact h
  | cons r rest ih =>
    intro ts n t h
    show findTicket (applyAvailableInserts
      (insertTicket ts (availableTicketData r)).1 rest).1 n = some t
    apply ih
    rw [insertTicket]
    by_cases hex : ts.any fun tt =>
      tt.ticket_number == (availableTicketData r).ticket_number
    · rw [if_pos hex]
      exact h
    · rw [if_neg hex]
      show findTicket (ts ++ [availableTicketData r]) n = some t
      rw [findTicket, List.find?_append]
      rw [findTicket] at h
      rw [h]
      rfl

/-- C8 amended: ingestion performs no bulk-cashier conflict check.  With
bulk upload enabled, every CSV row whose number lies inside the bulk
bounds is upserted: the whole operation reports success and the final
store holds a sold bulk ticket with the supplied bulk buyer at that
number, unconditionally overwriting any pre-existing row there,
including a non-bulk sold or used ticket. -/
theorem upload_bulk_upsert_spec (st : UpStore) (rows : List TicketRow)
    (ca : Bool) (bn : String) (bem bp : Option String) (now actor : Nat)
    (n : Int)
    (hb1 : truthyInt st.event.bulk_sold_range_start = true)
    (hb2 : truthyInt st.event.bulk_sold_range_end = true)
    (hcon : validBulkRange { st.event with
      range_start := csvMinOf rows, range_end := csvMaxOf rows } = true)
    (hn : n ∈ rows.map (·.ticketNumber))
    (hlo : st.event.bulk_sold_range_start.getD 0 ≤ n)
    (hhi : n ≤ st.event.bulk_sold_range_end.getD 0) :
    (∃ res, (handleUpload st rows true ca bn bem bp now actor).1 = .ok res)
    ∧ ∃ t, findTicket
        (handleUpload st rows true ca bn bem bp now actor).2.tickets n = some t
      ∧ t.sale_type = .bulk ∧ t.status = .sold ∧ t.buyer_name = some bn
      ∧ t.buyer_email = bem ∧ t.buyer_phone = bp := by
  have hne : ¬ rows.length = 0 := by
    intro h0
    rw [List.length_eq_zero] at h0
    subst h0
    simp at hn
  have hu : handleUpload st rows true ca bn bem bp now actor
      = uploadTickets { st with event := { st.event with
          range_start := csvMinOf rows, range_end := csvMaxOf rows } }
        rows true ca bn bem bp now actor := by
    rw [handleUpload, if_neg (by simp [hb1, hb2]), if_neg hne,
      if_neg (by simp [hcon])]
  rw [hu]
  have hmem : n ∈ (bulkPartition { st.event with
      range_start := csvMinOf rows, range_end := csvMaxOf rows } rows).map
        (·.ticketNumber) := by
    rcases List.mem_map.mp hn with ⟨r, hr, hrn⟩
    refine List.mem_map.mpr ⟨r, List.mem_filter.mpr ⟨hr, ?_⟩, hrn⟩
    rw [hrn]
    simpa using ⟨hlo, hhi⟩
  obtain ⟨t, hfind, ht1, ht2, ht3, ht4, ht5⟩ :=
    findTicket_applyBulkUpserts_mem
      (bulkPartition { st.event with
        range_start := csvMinOf rows, range_end := csvMaxOf rows } rows)
      st.tickets bn bem bp now actor n hmem
  cases ca with
  | false => exact ⟨⟨_, rfl⟩, ⟨t, hfind, ht1, ht2, ht3, ht4, ht5⟩⟩
  | true =>
    exact ⟨⟨_, rfl⟩,
      ⟨t, findTicket_applyAvailableInserts _ _ n t hfind, ht1, ht2, ht3, ht4, ht5⟩⟩

/-- A cashier-channel sold ticket occupying number 5. -/
def cashierSoldTicket5 : TicketRecord :=
  { id := 1, ticket_number := 5, ticket_code := "T0005", qr_data := "Q5",
    status := .sold, sale_type := .cashier, buyer_name := some "Jo",
    buyer_email := none, buyer_phone := none, sold_at := some 3,
    sold_by := some 7, scanned_at := none, scanned_by := none }

/-- The ingestion counterexample store: event with bulk bounds 1..10 and
a pre-existing cashier sold ticket at number 5. -/
def upStoreCex : UpStore :=
  { event := evBulk110, tickets := [cashierSoldTicket5] }

/-- CSV rows for the counterexample: numbers 1, 5 and 11. -/
def rowsCex : List TicketRow :=
  [⟨1, "T0001", "Q1"⟩, ⟨5, "T0005", "Q5"⟩, ⟨11, "T0011", "Q11"⟩]

/-- C8 counterexample: a bulk partition claiming number 5, which is
occupied by a pre-existing cashier sold ticket, does not fail: the whole
upload reports success and the cashier ticket is silently overwritten
into a bulk ticket owned by the bulk buyer. -/
theorem upload_overwrites_cashier_ticket_cex :
    findTicket upStoreCex.tickets 5 = some cashierSoldTicket5
    ∧ cashierSoldTicket5.sale_type = .cashier
    ∧ cashierSoldTicket5.status = .sold
    ∧ (handleUpload upStoreCex rowsCex true true "Acme" none none 40 7).1
        = .ok ⟨3, 0, 2, 1⟩
    ∧ (findTicket
        (handleUpload upStoreCex rowsCex true true "Acme" none none 40 7).2.tickets
        5).map (fun t => (t.sale_type, t.status, t.buyer_name))
        = some (.bulk, .sold, some "Acme") := by
  decide

/-- Witness for the amended C8: applying it to the counterexample store
at number 5 exhibits the overwriting upsert. -/
theorem upload_bulk_upsert_spec_witness :
    (∃ res, (handleUpload upStoreCex rowsCex true true "Acme" none none 40 7).1
      = .ok res)
    ∧ ∃ t, findTicket
        (handleUpload upStoreCex rowsCex true true "Acme" none none 40 7).2.tickets
        5 = some t
      ∧ t.sale_type = .bulk ∧ t.status = .sold ∧ t.buyer_name = some "Acme"
      ∧ t.buyer_email = none ∧ t.buyer_phone = none :=
  upload_bulk_upsert_spec upStoreCex rowsCex true "Acme" none none 40 7 5
    (by decide) (by decide) (by decide) (by decide) (by decide) (by decide)

/-- The events row inserted by handleCreateEvent: the range is the (0,0)
sentinel awaiting ingestion, while the bulk columns are set to the
entered bulk range (the page validates bulkStart >= 1 and
bulkStart <= bulkEnd before inserting). -/
def handleCreateEvent_row (bulkStart bulkEnd : Int) : EventRow :=
  { range_start := 0, range_end := 0,
    bulk_sold_range_start := some bulkStart,
    bulk_sold_range_end := some bulkEnd,
    bulk_buyer_name := none, bulk_buyer_email := none,
    bulk_buyer_phone := none }

/-- C9: every events row produced by handleCreateEvent (with inputs the
page accepts: bulkStart >= 1, bulkStart <= bulkEnd) has its bulk columns
set while its range is the (0,0) sentinel, so bulkRangeEnd exceeds
rangeEnd and the row violates the valid_bulk_range CHECK constraint of
the schema: the claimed invariant fails at event creation. -/
theorem create_event_violates_bulk_invariant (bs be : Int)
    (h1 : 1 ≤ bs) (h2 : bs ≤ be) :
    validBulkRange (handleCreateEvent_row bs be) = false
    ∧ (handleCreateEvent_row bs be).bulk_sold_range_start = some bs
    ∧ (handleCreateEvent_row bs be).bulk_sold_range_end = some be
    ∧ (handleCreateEvent_row bs be).range_end < be := by
  have hfalse : decide (be ≤ (0 : Int)) = false := decide_eq_false (by omega)
  refine ⟨?_, rfl, rfl, ?_⟩
  · simp [validBulkRange, handleCreateEvent_row, hfalse]
  · show (0 : Int) < be
    omega

/-- Witness for C9 at the documentation example bulk range 1..600. -/
theorem create_event_violates_bulk_invariant_witness :
    validBulkRange (handleCreateEvent_row 1 600) = false
    ∧ (handleCreateEvent_row 1 600).bulk_sold_range_start = some 1
    ∧ (handleCreateEvent_row 1 600).bulk_sold_range_end = some 600
    ∧ (handleCreateEvent_row 1 600).range_end < 600 :=
  create_event_violates_bulk_invariant 1 600 (by decide) (by decide)

/-- C10: on every run whose guards pass (bulk range present, rows
non-empty, the new range acceptable to the valid_bulk_range CHECK),
handleUpload overwrites the event range with the smallest and largest
uploaded ticket numbers, whatever the previous range was (no sentinel
test); the write happens before the ticket phases and uploadTickets
never touches the event row, so failed ticket writes cannot revert it. -/
theorem upload_range_overwrite_spec (st : UpStore) (rows : List TicketRow)
    (ub ca : Bool) (bn : String) (bem bp : Option String) (now actor : Nat)
    (hb1 : truthyInt st.event.bulk_sold_range_start = true)
    (hb2 : truthyInt st.event.bulk_sold_range_end = true)
    (hne : rows ≠ [])
    (hcon : validBulkRange { st.event with
      range_start := csvMinOf rows, range_end := csvMaxOf rows } = true) :
    (handleUpload st rows ub ca bn bem bp now actor).2.event
      = { st.event with
          range_start := csvMinOf rows, range_end := csvMaxOf rows }
    ∧ csvMinOf rows ∈ rows.map (·.ticketNumber)
    ∧ (∀ x ∈ rows.map (·.ticketNumber), csvMinOf rows ≤ x)
    ∧ csvMaxOf rows ∈ rows.map (·.ticketNumber)
    ∧ (∀ x ∈ rows.map (·.ticketNumber), x ≤ csvMaxOf rows)
    ∧ (∀ (st2 : UpStore) (rows2 : List TicketRow) (ub2 ca2 : Bool)
        (bn2 : String) (bem2 bp2 : Option String) (now2 actor2 : Nat),
        (uploadTickets st2 rows2 ub2 ca2 bn2 bem2 bp2 now2 actor2).2.event
          = st2.event) := by
  have hne0 : ¬ rows.length = 0 := by
    intro h0
    exact hne (List.length_eq_zero.mp h0)
  have hu : handleUpload st rows ub ca bn bem bp now actor
      = uploadTickets { st with event := { st.event with
          range_start := csvMinOf rows, range_end := csvMaxOf rows } }
        rows ub ca bn bem bp now actor := by
    rw [handleUpload, if_neg (by simp [hb1, hb2]), if_neg hne0,
      if_neg (by simp [hcon])]
  have hframe : ∀ (st2 : UpStore) (rows2 : List TicketRow) (ub2 ca2 : Bool)
      (bn2 : String) (bem2 bp2 : Option String) (now2 actor2 : Nat),
      (uploadTickets st2 rows2 ub2 ca2 bn2 bem2 bp2 now2 actor2).2.event
        = st2.event := by
    intro st2 rows2 ub2 ca2 bn2 bem2 bp2 now2 actor2
    cases ub2 <;> cases ca2 <;> rfl
  refine ⟨?_, (csvMinOf_spec rows hne).1, (csvMinOf_spec rows hne).2,
    (csvMaxOf_spec rows hne).1, (csvMaxOf_spec rows hne).2, hframe⟩
  rw [hu, hframe]

/-- A pre-existing available cashier ticket at number 3, which makes the
available-phase insert of row 3 fail in the C10 witness. -/
def availTicket3 : TicketRecord :=
  { id := 9, ticket_number := 3, ticket_code := "T0003", qr_data := "Q3",
    status := .available, sale_type := .cashier, buyer_name := none,
    buyer_email := none, buyer_phone := none, sold_at := none,
    sold_by := none, scanned_at := none, scanned_by := none }

/-- The C10 witness event: a non-sentinel range 1..100 with bulk bounds
1..2. -/
def evUploadW : EventRow :=
  { range_start := 1, range_end := 100,
    bulk_sold_range_start := some 1, bulk_sold_range_end := some 2,
    bulk_buyer_name := none, bulk_buyer_email := none,
    bulk_buyer_phone := none }

/-- The C10 witness store. -/
def upStoreW : UpStore :=
  { event := evUploadW, tickets := [availTicket3] }

/-- CSV rows 1..3 for the C10 witness. -/
def rowsW : List TicketRow :=
  [⟨1, "T0001", "Q1"⟩, ⟨2, "T0002", "Q2"⟩, ⟨3, "T0003", "Q3"⟩]

/-- Witness for C10: the non-sentinel range 1..100 is overwritten with
1..3, and stays overwritten although the available-phase write of row 3
fails (one failed row in the reported counts). -/
theorem upload_range_overwrite_spec_witness :
    ((handleUpload upStoreW rowsW true true "B" none none 5 7).1
      = .ok ⟨2, 1, 2, 0⟩)
    ∧ ((handleUpload upStoreW rowsW true true "B" none none 5 7).2.event
        = { upStoreW.event with
            range_start := csvMinOf rowsW, range_end := csvMaxOf rowsW }
      ∧ csvMinOf rowsW ∈ rowsW.map (·.ticketNumber)
      ∧ (∀ x ∈ rowsW.map (·.ticketNumber), csvMinOf rowsW ≤ x)
      ∧ csvMaxOf rowsW ∈ rowsW.map (·.ticketNumber)
      ∧ (∀ x ∈ rowsW.map (·.ticketNumber), x ≤ csvMaxOf rowsW)
      ∧ (∀ (st2 : UpStore) (rows2 : List TicketRow) (ub2 ca2 : Bool)
          (bn2 : String) (bem2 bp2 : Option String) (now2 actor2 : Nat),
          (uploadTickets st2 rows2 ub2 ca2 bn2 bem2 bp2 now2 actor2).2.event
            = st2.event)) :=
  ⟨by decide,
    upload_range_overwrite_spec upStoreW rowsW true true "B" none none 5 7
      (by decide) (by decide) (by decide) (by decide)⟩

end TicketSystem
